import Mathlib

/-!
Verification development for the AlgoDomo gateway (`app.py`).

The Python source is shallowly embedded: bytes are integers, Python floats
are modelled as exact rationals (`PyNum.fin`) together with explicit
non-finite markers (`nan`, `inf`, `ninf`), and the handful of CPython
builtins whose exact behaviour is irrelevant to the verified properties
(string-to-float parsing, `str()` of non-string values, unicode
`isalnum`) are abstracted into a `PyPrims` record: every theorem holds for
every choice of those primitives.
-/

/-- Python float values: an exact rational, or one of the non-finite floats. -/
inductive PyNum where
  | fin (q : ℚ)
  | nan
  | inf
  | ninf
deriving DecidableEq

/-- JSON values as loaded by `json.loads` (Python `None`/`bool`/number/
`str`/`list`/`dict`). -/
inductive PyVal where
  | null
  | pbool (b : Bool)
  | pnum (n : PyNum)
  | pstr (s : String)
  | parr (items : List PyVal)
  | pobj (fields : List (String × PyVal))

/-- CPython builtins the embedding is parametric in. -/
structure PyPrims where
  /-- Models the `float(txt)` / `int(txt, 16)` attempt of `to_number` on an
  already stripped and lowercased text; `none` models a raised exception. -/
  parseNum : String → Option PyNum
  /-- Models `str(value)` for non-string, non-`None` values. -/
  reprAny : PyVal → String
  /-- Models `str.isalnum` on a single character. -/
  isAlnum : Char → Bool

/-- Python's `str.strip()` (no arguments): drop whitespace from both
ends.  Defined over the character list so that it evaluates inside the
kernel; `Char.isWhitespace` models Python's notion of whitespace. -/
def pyStrip (s : String) : String :=
  String.mk (((s.toList.dropWhile Char.isWhitespace).reverse.dropWhile
    Char.isWhitespace).reverse)

/-- Python's `str.lower()`, modelled characterwise. -/
def pyLower (s : String) : String := String.mk (s.toList.map Char.toLower)

/-- `int()` applied to a finite float: truncation toward zero. -/
def ratTrunc (q : ℚ) : ℤ := if 0 ≤ q then ⌊q⌋ else -⌊-q⌋

/-- Python `round` to an integer: round half to even (banker's rounding). -/
def roundHalfEven (q : ℚ) : ℤ :=
  if q - ⌊q⌋ < 1/2 then ⌊q⌋
  else if 1/2 < q - ⌊q⌋ then ⌊q⌋ + 1
  else if ⌊q⌋ % 2 = 0 then ⌊q⌋ else ⌊q⌋ + 1

/-- `clamp_int` from the source, for an argument already known to be an
integer (Python ints are finite, and `int()` of an int is itself). -/
def clamp_int_z (value lo hi : ℤ) : ℤ := max lo (min hi value)

/-- `clamp_int(value, lo, hi)` from the source: non-finite values collapse
to the minimum, finite ones are truncated by `int()` then clamped. -/
def clamp_int_p (value : PyNum) (lo hi : ℤ) : ℤ :=
  match value with
  | .fin q => max lo (min hi (ratTrunc q))
  | _ => lo

/-- `to_number` on a string input (the `isinstance(value, str)` branch):
strip + lowercase, empty text yields the fallback, otherwise the parse is
attempted and an exception yields the fallback. -/
def to_number_str (P : PyPrims) (s : String) (fallback : PyNum) : PyNum :=
  let txt := pyLower (pyStrip s)
  if txt = "" then fallback
  else match P.parseNum txt with
    | some n => n
    | none => fallback

/-- `to_number(value, fallback)` from the source, over an optional JSON
value (`None` for a missing key).  Order of the `isinstance` checks is
preserved: `bool` first, then finite numbers, then strings; everything
else (including non-finite numbers and JSON `null`) yields the fallback. -/
def to_number (P : PyPrims) (value : Option PyVal) (fallback : PyNum) : PyNum :=
  match value with
  | some (.pbool b) => .fin (if b then 1 else 0)
  | some (.pnum (.fin q)) => .fin q
  | some (.pstr s) => to_number_str P s fallback
  | _ => fallback

/-- `to_address` applied to a Python int (the common call sites, where
`to_number` is the identity). -/
def to_address_z (value fallback : ℤ) : ℤ :=
  if value < 0 ∨ 254 < value then fallback else value

/-- `to_address(value, fallback)` from the source, on an arbitrary
`to_number` result: non-finite yields the fallback, out-of-range integers
yield the fallback. -/
def to_address_p (value : PyNum) (fallback : ℤ) : ℤ :=
  match value with
  | .fin q => to_address_z (ratTrunc q) fallback
  | _ => fallback

/-- `to_byte` for an integer argument: clamp to 0..255. -/
def to_byte_z (value : ℤ) : ℤ := clamp_int_z value 0 255

/-- `normalize_text` applied to a value already known to be a string
(`str()` is the identity there): strip, with a fallback for empty text. -/
def normalize_text_str (s : String) (fallback : String) : String :=
  if pyStrip s = "" then fallback else pyStrip s

/-- `str(value if value is not None else "")`: missing keys and JSON
`null` (Python `None`) give `""`, strings stay, anything else goes
through the abstracted `repr`. -/
def pyStr (P : PyPrims) : Option PyVal → String
  | none => ""
  | some .null => ""
  | some (.pstr s) => s
  | some v => P.reprAny v

/-- `normalize_text(value, fallback)` from the source. -/
def normalize_text (P : PyPrims) (value : Option PyVal) (fallback : String) : String :=
  normalize_text_str (pyStr P value) fallback

/-- Python's `needle in hay` on strings, over character lists. -/
def hasSubstr (needle : List Char) : List Char → Bool
  | [] => needle.isEmpty
  | c :: rest => needle.isPrefixOf (c :: rest) || hasSubstr needle rest

/-- Fields of a JSON object (`board_any if isinstance(board_any, dict)
else {}` followed by `.get`). -/
def pyFields : PyVal → List (String × PyVal)
  | .pobj fs => fs
  | _ => []

/-- `d.get(key)`: `none` when the key is absent. -/
def pyGet (v : PyVal) (key : String) : Option PyVal :=
  (pyFields v).lookup key

/-- `as_list` from the source. -/
def as_list : PyVal → List PyVal
  | .parr items => items
  | _ => []

/-! ## Frame codec (`build_frame`, `extract_first_frame`, `parse_frame`) -/

def FRAME_START : ℤ := 0x49
def FRAME_END : ℤ := 0x46
def FRAME_LEN : ℕ := 14

/-- `build_frame(address, command, g_bytes)`: the 14-byte packet, with the
byte-array assignments of the source unrolled (position `3+idx` holds
`to_byte(g_bytes[idx] if idx < len(g_bytes) else 0, 0)`). -/
def build_frame (address command : ℤ) (g_bytes : List ℤ) : List ℤ :=
  [FRAME_START, to_address_z address 1, to_byte_z command,
   to_byte_z (g_bytes.getD 0 0), to_byte_z (g_bytes.getD 1 0),
   to_byte_z (g_bytes.getD 2 0), to_byte_z (g_bytes.getD 3 0),
   to_byte_z (g_bytes.getD 4 0), to_byte_z (g_bytes.getD 5 0),
   to_byte_z (g_bytes.getD 6 0), to_byte_z (g_bytes.getD 7 0),
   to_byte_z (g_bytes.getD 8 0), to_byte_z (g_bytes.getD 9 0),
   FRAME_END]

/-- The scan loop of `extract_first_frame`: `fuel` counts the remaining
iterations of `for idx in range(0, len(buffer) - FRAME_LEN + 1)`, so the
loop body runs for `idx, idx+1, ...` exactly as many times as the range
has elements left; the two early-`continue` checks of the body are the
conjunction. -/
def extract_scan (buffer : List ℤ) (idx : ℕ) : ℕ → Option (List ℤ)
  | 0 => none
  | fuel + 1 =>
    if buffer.getD idx 0 = FRAME_START ∧ buffer.getD (idx + 13) 0 = FRAME_END then
      some ((buffer.drop idx).take FRAME_LEN)
    else extract_scan buffer (idx + 1) fuel

/-- `extract_first_frame(buffer)` from the source: the guard for short
buffers, then the scan over all `len - FRAME_LEN + 1` window offsets. -/
def extract_first_frame (buffer : List ℤ) : Option (List ℤ) :=
  if buffer.length < FRAME_LEN then none
  else extract_scan buffer 0 (buffer.length - FRAME_LEN + 1)

/-- The property that offset `i` of `buffer` starts a valid frame window:
the byte there is the start marker and the byte 13 positions later is the
end marker (and the window fits). -/
def frame_at (buffer : List ℤ) (i : ℕ) : Prop :=
  i + FRAME_LEN ≤ buffer.length ∧
    buffer.getD i 0 = FRAME_START ∧ buffer.getD (i + 13) 0 = FRAME_END

instance (buffer : List ℤ) (i : ℕ) : Decidable (frame_at buffer i) := by
  unfold frame_at; infer_instance

/-- Hex rendering of `f"0x{b:02x}"` for byte values. -/
def hex_digit (n : ℕ) : Char :=
  if n < 10 then Char.ofNat (48 + n) else Char.ofNat (87 + n)

/-- `to_hex(byte)` from the source. -/
def to_hex (b : ℤ) : String :=
  let v := (to_byte_z b).toNat
  String.mk ['0', 'x', hex_digit (v / 16), hex_digit (v % 16)]

/-- The dictionary produced by `parse_frame(frame)`. -/
structure ParsedFrame where
  startByte : ℤ
  address : ℤ
  command : ℤ
  g : List ℤ
  endByte : ℤ
  hex : String
deriving DecidableEq

/-- `parse_frame(frame)` from the source. -/
def parse_frame (frame : List ℤ) : ParsedFrame :=
  ⟨frame.getD 0 0, frame.getD 1 0, frame.getD 2 0,
   (List.range 10).map (fun idx => frame.getD (3 + idx) 0),
   frame.getD 13 0,
   String.intercalate " " (frame.map to_hex)⟩

/-! ## Transport channel (`send_raw`) -/

/-- The two deadline failure outcomes of `send_raw`.  The serial `OSError`
path (a link failure, re-raised before the read loop finishes) is outside
this pure model. -/
inductive TransportError where
  | invalidResponse
  | noResponse
deriving DecidableEq

/-- The message carried by the `RuntimeError` of each failure outcome. -/
def transport_error_message : TransportError → String
  | .invalidResponse => "Risposta protocollo non valida"
  | .noResponse => "Nessuna risposta ricevuta"

/-- A successful exchange: a parsed frame (frame mode) or the first
`min_bytes` raw bytes (raw mode). -/
inductive ExchangeResult where
  | frameRes (pf : ParsedFrame)
  | rawRes (bytes : List ℤ)
deriving DecidableEq

/-- The read loop of `send_raw`, abstracted over the sequence of chunks
that arrive before the deadline (the list end models the deadline
elapsing, where the final extraction or length check of the source runs).
Empty chunks are skipped exactly as `if not chunk: continue` does, and
`min_bytes = max(1, int(expected_bytes))` is recomputed per check. -/
def send_loop (expectFrame : Bool) (expectedBytes : ℤ) (received : List ℤ) :
    List (List ℤ) → Except TransportError ExchangeResult
  | [] =>
    if expectFrame then
      match extract_first_frame received with
      | some f => .ok (.frameRes (parse_frame f))
      | none => .error .invalidResponse
    else
      if max 1 expectedBytes ≤ (received.length : ℤ) then
        .ok (.rawRes (received.take (max 1 expectedBytes).toNat))
      else .error .noResponse
  | chunk :: rest =>
    if chunk = [] then send_loop expectFrame expectedBytes received rest
    else
      let received2 := received ++ chunk
      if expectFrame then
        match extract_first_frame received2 with
        | some f => .ok (.frameRes (parse_frame f))
        | none => send_loop expectFrame expectedBytes received2 rest
      else
        if max 1 expectedBytes ≤ (received2.length : ℤ) then
          .ok (.rawRes (received2.take (max 1 expectedBytes).toNat))
        else send_loop expectFrame expectedBytes received2 rest

/-- `send_raw(payload, expect_frame, expected_bytes)` as a function of the
chunks received before the deadline; the accumulation buffer starts
empty. -/
def send_raw_model (expectFrame : Bool) (expectedBytes : ℤ)
    (chunks : List (List ℤ)) : Except TransportError ExchangeResult :=
  send_loop expectFrame expectedBytes [] chunks

/-! ## Polling decoder and temperature codec -/

/-- The decoded polling snapshot of `decode_polling_frame`. -/
structure PollDecoded where
  boardType : ℕ
  release : ℕ
  outputMask : ℤ
  inputMask : ℤ
  dimmerLevel : ℤ
  temperature : ℚ
  powerKw : ℚ
  setpoint : ℤ
deriving DecidableEq

def DIMMER_MIN_LEVEL : ℤ := 0

def DIMMER_MAX_LEVEL : ℤ := 9

/-- `decode_polling_frame(frame)` from the source, over the ten payload
bytes `g` of a parsed frame (always length 10 there). -/
def decode_polling_frame (g : List ℤ) : PollDecoded :=
  let type_and_release := (to_byte_z (g.getD 0 0)).toNat
  let sign : ℚ := if g.getD 6 0 = 0x2D then -1 else 1
  let temp_i := to_byte_z (g.getD 4 0)
  let temp_d := to_byte_z (g.getD 5 0)
  ⟨type_and_release &&& 0x0F, (type_and_release >>> 4) &&& 0x0F,
   to_byte_z (g.getD 1 0), to_byte_z (g.getD 2 0),
   clamp_int_z (g.getD 3 0) DIMMER_MIN_LEVEL DIMMER_MAX_LEVEL,
   sign * ((temp_i : ℚ) + (temp_d : ℚ) / 10),
   (to_byte_z (g.getD 7 0) : ℚ) / 10,
   to_byte_z (g.getD 8 0)⟩

/-- `split_temperature(value)` from the source, with the Python float
arithmetic carried out exactly over the rationals (`round(x, 1)` is
rounding half to even at one decimal). -/
def split_temperature (value : ℚ) : ℤ × ℤ :=
  let rounded : ℚ := (roundHalfEven (|value| * 10) : ℚ) / 10
  let int_part : ℤ := ratTrunc rounded
  let dec_part : ℤ := roundHalfEven ((rounded - (int_part : ℚ)) * 10)
  (clamp_int_z int_part 0 99, clamp_int_z dec_part 0 9)

/-! ## Boards, entities, lookup (`iter_entities`, `find_entity`) -/

/-- A channel entry of a normalized board. -/
structure ChannelMeta where
  channel : ℤ
  name : String
  room : String
deriving DecidableEq

/-- A normalized board record (the shape produced by `normalize_board` and
stored in the config). -/
structure Board where
  id : String
  name : String
  address : ℤ
  kind : String
  channelStart : ℤ
  channelEnd : ℤ
  channels : List ChannelMeta
deriving DecidableEq

/-- `MAX_CHANNEL_BY_KIND[...]`, with the `.get(kind, 8)` default of the
call sites (the direct `[kind]` index in `normalize_board` only ever sees
one of the four kinds, where this function agrees with the table). -/
def max_channel_by_kind (kind : String) : ℤ :=
  if kind = "shutter" then 4 else if kind = "dimmer" then 1 else 8

/-- `default_channel_name(kind, channel)` from the source. -/
def default_channel_name (kind : String) (channel : ℤ) : String :=
  if kind = "light" then "Luce " ++ toString channel
  else if kind = "shutter" then "Tapparella " ++ toString channel
  else if kind = "dimmer" then "Dimmer " ++ toString channel
  else "Termostato " ++ toString channel

/-- `entity_id(board_id, channel)` from the source. -/
def mk_entity_id (board_id : String) (channel : ℤ) : String :=
  board_id ++ "-c" ++ toString channel

/-- The derived entity record of `iter_entities`. -/
structure Entity where
  id : String
  kind : String
  boardId : String
  boardName : String
  address : ℤ
  channel : ℤ
  name : String
  room : String
deriving DecidableEq

/-- `iter_entities(cfg, kind)` from the source, over a typed board list
(the fields of a normalized config, where the numeric fields are Python
ints and `to_number` is the identity on them). -/
def iter_entities (boards : List Board) (kind : String) : List Entity :=
  boards.foldr
    (fun board acc =>
      if kind ≠ "" ∧ board.kind ≠ kind then acc
      else
        (board.channels.map (fun ch =>
          let chNum := clamp_int_z ch.channel 1 (max_channel_by_kind board.kind)
          ⟨mk_entity_id board.id chNum, board.kind, board.id, board.name,
           to_address_z board.address (-1), chNum,
           normalize_text_str ch.name (default_channel_name board.kind chNum),
           normalize_text_str ch.room "Senza stanza"⟩)) ++ acc)
    []

/-- `find_entity(cfg, kind, item_id, address_raw, channel_raw)` from the
source; the raw address and channel arrive as query strings. -/
def find_entity (P : PyPrims) (boards : List Board)
    (kind item_id addressRaw channelRaw : String) : Option Entity :=
  let entities := iter_entities boards kind
  if item_id ≠ "" then entities.find? (fun e => e.id = item_id)
  else
    let address := to_address_p (to_number_str P addressRaw (.fin (-1))) (-1)
    let channel := clamp_int_p (to_number_str P channelRaw (.fin (-1))) 1
      (max_channel_by_kind kind)
    if address < 0 then none
    else
      let by_address := entities.filter (fun e => e.address = address)
      if 1 ≤ channel then by_address.find? (fun e => e.channel = channel)
      else if by_address.length = 1 then by_address.head?
      else by_address.head?

/-! ## Dimmer command (`api_dimmer`) -/

/-- The stored dimmer record read by `api_dimmer` (the handler's own
writes store integers, so the stored values are modelled as ints; the
source still clamps them on read, which the embedding preserves). -/
structure DimmerPrev where
  level : ℤ
  lastOnLevel : ℤ
deriving DecidableEq

/-- The record written back by `api_dimmer`'s mutator. -/
structure DimmerWrite where
  level : ℤ
  isOn : Bool
  lastOnLevel : ℤ
deriving DecidableEq

/-- `parse_dimmer_action(value)` from the source. -/
def parse_dimmer_action (value : String) : Except String String :=
  let action := pyLower (normalize_text_str value "")
  if action = "on" ∨ action = "off" ∨ action = "toggle" then .ok action
  else if action ≠ "" then .error "action non valida: usa on/off/toggle"
  else .ok ""

/-- The level/state core of `api_dimmer`, after entity lookup: resolves
the target level, models the `0x5B` set frame as succeeding, applies the
best-effort re-poll override (`pollLevel` is the `dimmerLevel` of the
re-poll, `none` when the re-poll failed), and produces the stored record.
Returns `(resolved_action, target_level, final_level, write)`. -/
def api_dimmer_core (P : PyPrims) (levelRaw actionRaw : String)
    (prev : Option DimmerPrev) (pollLevel : Option ℤ) :
    Except String (String × ℤ × ℤ × DimmerWrite) :=
  match parse_dimmer_action actionRaw with
  | .error e => .error e
  | .ok action =>
    let prev_level := clamp_int_z (match prev with | some p => p.level | none => 0)
      DIMMER_MIN_LEVEL DIMMER_MAX_LEVEL
    let last_on := clamp_int_z
      (match prev with | some p => p.lastOnLevel | none => DIMMER_MAX_LEVEL)
      1 DIMMER_MAX_LEVEL
    let resolved : Except String (ℤ × String) :=
      if pyStrip levelRaw ≠ "" then
        -- `parse_dimmer_level(level_raw)`
        match to_number_str P levelRaw .nan with
        | .fin q => .ok (clamp_int_z (ratTrunc q) DIMMER_MIN_LEVEL DIMMER_MAX_LEVEL, "set")
        | _ => .error "level non valido: usa 0..9"
      else if action = "" then .error "serve almeno un parametro: level o action"
      else if action = "off" then .ok (DIMMER_MIN_LEVEL, action)
      else if action = "on" then
        .ok (if prev_level = 0 then last_on else prev_level, action)
      else .ok (if 0 < prev_level then DIMMER_MIN_LEVEL else last_on, action)
    match resolved with
    | .error e => .error e
    | .ok (target_level, resolved_action) =>
      let final_level := match pollLevel with
        | some pl => clamp_int_z pl DIMMER_MIN_LEVEL DIMMER_MAX_LEVEL
        | none => target_level
      let new_last_on := if 0 < final_level then final_level else last_on
      .ok (resolved_action, target_level, final_level,
        ⟨final_level, decide (0 < final_level), new_last_on⟩)

/-! ## Thermostat command (`api_thermostat`) -/

/-- The stored thermostat record read by `api_thermostat`; `none` fields
model stored values of the wrong shape (non-number setpoint, unknown
mode, non-bool flags), which the handler replaces with its defaults. -/
structure ThermoPrev where
  setpoint : Option ℚ
  mode : Option String
  isOn : Option Bool
  isActive : Option Bool
deriving DecidableEq

/-- The record written back by `api_thermostat`'s mutator. -/
structure ThermoWrite where
  setpoint : ℚ
  mode : String
  isOn : Bool
  isActive : Bool
deriving DecidableEq

/-- The observable outcome of the handler: every frame handed to
`send_frame` as `(command, g_bytes)` in wire order (the trailing `0x40`
entry is the best-effort re-poll, issued after the state write), the
state write (`none` when an error aborted the handler before
`update_state`), and the raised error, if any. -/
structure ThermoResult where
  sent : List (ℤ × List ℤ)
  write : Option ThermoWrite
  err : Option String
deriving DecidableEq

/-- `parse_thermostat_mode(value)`, behind the `mode_raw.strip()` presence
check of the handler. -/
def parse_req_mode (modeRaw : String) : Except String (Option String) :=
  if pyStrip modeRaw = "" then .ok none
  else
    let v := pyLower (normalize_text_str modeRaw "")
    if v = "winter" ∨ v = "inverno" ∨ v = "heat" then .ok (some "winter")
    else if v = "summer" ∨ v = "estate" ∨ v = "cool" then .ok (some "summer")
    else .error "mode non valido: usa winter/summer"

/-- `parse_thermostat_power(value)`, behind the `power_raw.strip()`
presence check of the handler. -/
def parse_req_power (powerRaw : String) : Except String (Option Bool) :=
  if pyStrip powerRaw = "" then .ok none
  else
    let v := pyLower (normalize_text_str powerRaw "")
    if v = "on" ∨ v = "1" ∨ v = "true" ∨ v = "yes" ∨ v = "acceso" ∨ v = "attivo" then
      .ok (some true)
    else if v = "off" ∨ v = "0" ∨ v = "false" ∨ v = "no" ∨ v = "spento" then
      .ok (some false)
    else .error "power non valido: usa on/off"

/-- The `set` parameter: `to_float(set_raw, nan)` followed by the
`isfinite` validation of the handler. -/
def parse_req_set (P : PyPrims) (setRaw : String) : Except String (Option ℚ) :=
  if pyStrip setRaw = "" then .ok none
  else
    match to_number_str P setRaw .nan with
    | .fin q => .ok (some q)
    | _ => .error "set non valido"

/-- The core of `api_thermostat` after entity lookup, with frame sends
modelled as succeeding.  Control flow mirrors the handler: parse the
three parameters, validate that at least one is present, read the stored
record with its defaults, send the mode frame first if requested, then
either the power-off zero-setpoint frame or a setpoint frame, write the
state, and finally issue the best-effort re-poll. -/
def api_thermostat_core (P : PyPrims) (setRaw modeRaw powerRaw : String)
    (prev : Option ThermoPrev) : ThermoResult :=
  match parse_req_set P setRaw with
  | .error e => ⟨[], none, some e⟩
  | .ok reqSet =>
  match parse_req_mode modeRaw with
  | .error e => ⟨[], none, some e⟩
  | .ok reqMode =>
  match parse_req_power powerRaw with
  | .error e => ⟨[], none, some e⟩
  | .ok reqPower =>
  if reqSet = none ∧ reqMode = none ∧ reqPower = none then
    ⟨[], none, some "serve almeno un parametro: set, power o mode"⟩
  else
    let prevSet : ℚ := match prev with
      | some p => p.setpoint.getD 21
      | none => 21
    let prevMode : String := match prev with
      | some p =>
        match p.mode with
        | some m => if m = "winter" ∨ m = "summer" then m else "winter"
        | none => "winter"
      | none => "winter"
    let prevPower : Bool := match prev with
      | some p => p.isOn.getD true
      | none => true
    let modeStep : List (ℤ × List ℤ) × String := match reqMode with
      | some m => ([((0x6B : ℤ), [(if m = "summer" then (1 : ℤ) else 0)])], m)
      | none => ([], prevMode)
    let nextSet : ℚ := reqSet.getD prevSet
    let powerStep : List (ℤ × List ℤ) × Bool :=
      if reqPower = some false then ([((0x5A : ℤ), [(0 : ℤ), 0])], false)
      else match reqSet with
        | some _ =>
          ([((0x5A : ℤ), [(split_temperature nextSet).1, (split_temperature nextSet).2])], true)
        | none =>
          if reqPower = some true then
            ([((0x5A : ℤ), [(split_temperature nextSet).1, (split_temperature nextSet).2])], true)
          else ([], prevPower)
    let prevActive : Bool := match prev with
      | some p => p.isActive.getD powerStep.2
      | none => powerStep.2
    ⟨modeStep.1 ++ powerStep.1 ++ [((0x40 : ℤ), [])],
     some ⟨nextSet, modeStep.2, powerStep.2, prevActive⟩, none⟩

/-! ## Status refresh sweep (`build_status`) -/

/-- The refresh loop of `build_status`, accumulator style like the Python
`for` loop: every configured address is polled; a successful poll adds no
error, a failed poll whose message contains the invalid-response text is
skipped (`continue`), any other failure is appended with its normalized
message.  Returns the polled addresses and the `refreshErrors` list. -/
def refresh_sweep_go (polls : List (ℤ × Except String Unit))
    (polled : List ℤ) (errs : List (ℤ × String)) : List ℤ × List (ℤ × String) :=
  match polls with
  | [] => (polled, errs)
  | (address, r) :: rest =>
    let errs2 := match r with
      | .ok _ => errs
      | .error exc =>
        let message := normalize_text_str exc "Errore polling"
        if hasSubstr "Risposta protocollo non valida".toList message.toList then errs
        else errs ++ [(address, message)]
    refresh_sweep_go rest (polled ++ [address]) errs2

/-- The refresh sweep over the configured addresses, each paired with the
outcome of its `poll_board` call (`Except.error` carries `str(exc)`). -/
def refresh_sweep (polls : List (ℤ × Except String Unit)) :
    List ℤ × List (ℤ × String) :=
  refresh_sweep_go polls [] []

/-! ## Config normalization (`normalize_board`) -/

/-- One pass of the `while "--" in out` collapse loop: every maximal run
of dashes ends up as a single dash, which is the fixpoint the Python loop
reaches. -/
def collapseDashes : List Char → List Char
  | '-' :: '-' :: rest => collapseDashes ('-' :: rest)
  | c :: rest => c :: collapseDashes rest
  | [] => []
termination_by l => l.length

/-- `out.strip("-")`. -/
def stripDashes (l : List Char) : List Char :=
  ((l.dropWhile (fun c => c = '-')).reverse.dropWhile (fun c => c = '-')).reverse

/-- `normalize_id(value, fallback)` from the source. -/
def normalize_id (P : PyPrims) (value : Option PyVal) (fallback : String) : String :=
  let raw := pyLower (normalize_text P value fallback)
  let cleaned := raw.toList.map
    (fun ch => if P.isAlnum ch || ch = '_' || ch = '-' then ch else '-')
  let out := stripDashes (collapseDashes cleaned)
  if out.isEmpty then fallback else String.mk out

/-- Python's `range(lo, hi + 1)` over ints, as a list. -/
def int_range (lo hi : ℤ) : List ℤ :=
  (List.range (hi + 1 - lo).toNat).map (fun (k : ℕ) => lo + (k : ℤ))

/-- The `provided_names` / `provided_rooms` dictionaries of
`normalize_board`: a left fold over the raw `channels` list in which a
later entry overwrites an earlier one, and entries whose clamped channel
number falls outside `[start, end]` are skipped. -/
def collect_channel_meta (P : PyPrims) (kind : String)
    (start stop maxChannel : ℤ) (entries : List PyVal) :
    (ℤ → Option String) × (ℤ → Option String) :=
  entries.foldl
    (fun maps entry =>
      let channel_num := clamp_int_p (to_number P (pyGet entry "channel") (.fin (-1)))
        1 maxChannel
      if channel_num < start ∨ stop < channel_num then maps
      else
        ((fun k => if k = channel_num then
            some (normalize_text P (pyGet entry "name")
              (default_channel_name kind channel_num))
          else maps.1 k),
         (fun k => if k = channel_num then
            some (normalize_text P (pyGet entry "room") "Senza stanza")
          else maps.2 k)))
    (fun _ => none, fun _ => none)

/-- `normalize_board(board_any, index)` from the source. -/
def normalize_board (P : PyPrims) (board_any : PyVal) (index : ℤ) : Board :=
  let get := pyGet board_any
  let board_id := normalize_id P (get "id") ("board-" ++ toString index)
  let name := normalize_text P (get "name") ("Scheda " ++ toString index)
  let address := to_address_p (to_number P (get "address") (.fin (index : ℚ))) index
  let kind_raw := pyLower (normalize_text P (get "kind") "light")
  let kind := if kind_raw = "light" ∨ kind_raw = "shutter" ∨
      kind_raw = "thermostat" ∨ kind_raw = "dimmer" then kind_raw else "light"
  let max_channel := max_channel_by_kind kind
  let start := clamp_int_p (to_number P (get "channelStart") (.fin 1)) 1 max_channel
  let end0 := clamp_int_p (to_number P (get "channelEnd") (.fin (max_channel : ℚ)))
    1 max_channel
  let stop := if end0 < start then start else end0
  let maps := collect_channel_meta P kind start stop max_channel
    (as_list ((get "channels").getD .null))
  let channels := (int_range start stop).map
    (fun channel_num =>
      (⟨channel_num,
        (maps.1 channel_num).getD (default_channel_name kind channel_num),
        (maps.2 channel_num).getD "Senza stanza"⟩ : ChannelMeta))
  ⟨board_id, name, address, kind, start, stop, channels⟩

/-! ## Concrete fixtures for witnesses and counterexamples -/

/-- A concrete instantiation of the abstracted CPython primitives, used
only to evaluate closed statements: the parser recognises the digits the
fixtures need and fails on everything else. -/
def testPrims : PyPrims :=
  ⟨fun s => if s = "3" then some (.fin 3) else none, fun _ => "", Char.isAlphanum⟩

/-- A normalized single-channel thermostat board at bus address 3 whose
only channel is number 2 (`channelStart = channelEnd = 2`). -/
def sampleThermoBoard : Board :=
  ⟨"t1", "Termostati", 3, "thermostat", 2, 2, [⟨2, "Zona giorno", "Sala"⟩]⟩

/-! ## Theorems -/

/-- C2: for every valid address (0-254), command (0-255) and payload of
at most 10 bytes each in 0-255, `extract_first_frame` applied to the
14-byte output of `build_frame(address, command, payload)` returns
exactly that frame (round-trip identity of the codec). -/
theorem build_frame_extract_roundtrip (address command : ℤ) (payload : List ℤ)
    (haddr : 0 ≤ address ∧ address ≤ 254) (hcmd : 0 ≤ command ∧ command ≤ 255)
    (hlen : payload.length ≤ 10) (hbytes : ∀ b ∈ payload, 0 ≤ b ∧ b ≤ 255) :
    extract_first_frame (build_frame address command payload) =
      some (build_frame address command payload) := rfl

/-- Witness for `build_frame_extract_roundtrip` at a concrete valid input. -/
theorem build_frame_extract_roundtrip_witness :
    extract_first_frame (build_frame 5 0x40 [1, 2]) =
      some (build_frame 5 0x40 [1, 2]) :=
  build_frame_extract_roundtrip 5 0x40 [1, 2] (by decide) (by decide) (by decide)
    (by decide)

/-- C9: the temperature vectors: `split_temperature(21.37) = (21, 4)`,
`split_temperature(-5.0) = (5, 0)` (the magnitude-only encode path), and
the polling decode gives temperature 21.4 for `g4 = 21`, `g5 = 4` with
`g6 ≠ 0x2D`, and -21.4 with `g6 = 0x2D`. -/
theorem temperature_codec_vectors (g6 : ℤ) (h : g6 ≠ 0x2D) :
    split_temperature (2137/100) = (21, 4) ∧
    split_temperature (-5) = (5, 0) ∧
    (decode_polling_frame [0, 0, 0, 0, 21, 4, g6, 0, 0, 0]).temperature = 214/10 ∧
    (decode_polling_frame [0, 0, 0, 0, 21, 4, 0x2D, 0, 0, 0]).temperature
      = -(214/10) := by
  have hsplit1 : split_temperature (2137/100) = (21, 4) := by
    have a1 : |(2137/100 : ℚ)| * 10 = 2137/10 := by
      rw [abs_of_nonneg (by norm_num)]; norm_num
    have a2 : roundHalfEven (2137/10) = 214 := by
      rw [roundHalfEven]
      norm_num
    have a3 : ratTrunc (((214 : ℤ) : ℚ) / 10) = 21 := by
      rw [ratTrunc, if_pos (by norm_num)]
      norm_num
    rw [split_temperature, a1, a2, a3]
    norm_num [roundHalfEven, clamp_int_z, max_def, min_def]
  have hsplit2 : split_temperature (-5) = (5, 0) := by
    have a1 : |(-5 : ℚ)| * 10 = 50 := by
      rw [abs_of_nonpos (by norm_num)]; norm_num
    have a2 : roundHalfEven (50) = 50 := by
      rw [roundHalfEven]
      norm_num
    have a3 : ratTrunc (((50 : ℤ) : ℚ) / 10) = 5 := by
      rw [ratTrunc, if_pos (by norm_num)]
      norm_num
    rw [split_temperature, a1, a2, a3]
    norm_num [roundHalfEven, clamp_int_z, max_def, min_def]
  have hg6 : ([0, 0, 0, 0, 21, 4, g6, 0, 0, 0] : List ℤ).getD 6 0 = g6 := rfl
  refine ⟨hsplit1, hsplit2, ?_, ?_⟩
  · rw [decode_polling_frame]
    rw [hg6, if_neg h]
    norm_num [to_byte_z, clamp_int_z, max_def, min_def]
  · rw [decode_polling_frame]
    norm_num [to_byte_z, clamp_int_z, max_def, min_def]

/-- Witness for `temperature_codec_vectors` at `g6 = 0`. -/
theorem temperature_codec_vectors_witness :
    split_temperature (2137/100) = (21, 4) ∧
    split_temperature (-5) = (5, 0) ∧
    (decode_polling_frame [0, 0, 0, 0, 21, 4, 0, 0, 0, 0]).temperature = 214/10 ∧
    (decode_polling_frame [0, 0, 0, 0, 21, 4, 0x2D, 0, 0, 0]).temperature
      = -(214/10) :=
  temperature_codec_vectors 0 (by decide)

/-- C1 counterexample: a frame-mode exchange that reaches the deadline
with ZERO bytes ever accumulated fails with the 'invalid response' error
("Risposta protocollo non valida"), which is distinct from the
'no response' error the claim promises for the zero-byte case. -/
theorem transport_zero_bytes_invalid_response :
    send_raw_model true 1 [] = .error .invalidResponse ∧
    TransportError.invalidResponse ≠ TransportError.noResponse := by
  exact ⟨rfl, by decide⟩

/-- C1 (amended): when an exchange ends at the deadline without success,
the failure outcome is determined by the MODE, not by how many bytes were
accumulated: frame mode always fails with the 'invalid response' error
(even with zero bytes) and raw mode always fails with the 'no response'
error (even when some, but too few, bytes arrived); the two errors are
distinct. -/
theorem transport_deadline_error_by_mode :
    (∀ (expectedBytes : ℤ) (chunks : List (List ℤ)) (e : TransportError),
        send_raw_model true expectedBytes chunks = .error e →
          e = .invalidResponse) ∧
    (∀ (expectedBytes : ℤ) (chunks : List (List ℤ)) (e : TransportError),
        send_raw_model false expectedBytes chunks = .error e → e = .noResponse) ∧
    TransportError.invalidResponse ≠ TransportError.noResponse := by
  have key : ∀ (ef : Bool) (eb : ℤ) (chunks : List (List ℤ)) (received : List ℤ)
      (e : TransportError), send_loop ef eb received chunks = .error e →
      e = (if ef then TransportError.invalidResponse else TransportError.noResponse) := by
    intro ef eb chunks
    induction chunks with
    | nil =>
      intro received e h
      simp only [send_loop] at h
      split at h
      · split at h
        · exact absurd h (by simp)
        · simp_all
      · split at h
        · exact absurd h (by simp)
        · simp_all
    | cons chunk rest ih =>
      intro received e h
      simp only [send_loop] at h
      split at h
      · exact ih received e h
      · split at h
        · split at h
          · exact absurd h (by simp)
          · exact ih _ e h
        · split at h
          · exact absurd h (by simp)
          · exact ih _ e h
  refine ⟨fun eb chunks e h => ?_, fun eb chunks e h => ?_, by decide⟩
  · simpa using key true eb chunks [] e h
  · simpa using key false eb chunks [] e h

/-- Witness for `transport_deadline_error_by_mode`: frame mode at the
deadline after garbage bytes, raw mode at the deadline with no bytes. -/
theorem transport_deadline_error_by_mode_witness :
    TransportError.invalidResponse = TransportError.invalidResponse ∧
    TransportError.noResponse = TransportError.noResponse :=
  ⟨transport_deadline_error_by_mode.1 1 [[1, 2, 3]] .invalidResponse rfl,
   transport_deadline_error_by_mode.2.1 1 [] .noResponse rfl⟩

/-- The error entry the refresh loop produces for one poll outcome:
`none` for a success or for a skipped invalid-response failure. -/
def refresh_error_entry (p : ℤ × Except String Unit) : Option (ℤ × String) :=
  match p.2 with
  | .ok _ => none
  | .error exc =>
    let message := normalize_text_str exc "Errore polling"
    if hasSubstr "Risposta protocollo non valida".toList message.toList then none
    else some (p.1, message)

/-- Accumulator lemma for the refresh loop. -/
theorem refresh_sweep_go_spec (polls : List (ℤ × Except String Unit)) :
    ∀ (polled : List ℤ) (errs : List (ℤ × String)),
      refresh_sweep_go polls polled errs =
        (polled ++ polls.map Prod.fst, errs ++ polls.filterMap refresh_error_entry) := by
  induction polls with
  | nil => intro polled errs; simp [refresh_sweep_go]
  | cons p rest ih =>
    intro polled errs
    obtain ⟨address, r⟩ := p
    cases r with
    | ok u =>
      rw [refresh_sweep_go]
      rw [ih]
      have he : refresh_error_entry (address, Except.ok u) = none := rfl
      simp [he, List.filterMap_cons]
    | error exc =>
      rw [refresh_sweep_go]
      by_cases hskip : hasSubstr "Risposta protocollo non valida".toList
          (normalize_text_str exc "Errore polling").toList = true
      · have he : refresh_error_entry (address, Except.error exc) = none := by
          rw [refresh_error_entry]
          exact if_pos hskip
        rw [if_pos hskip, ih]
        simp [he, List.filterMap_cons]
      · have he : refresh_error_entry (address, Except.error exc) =
            some (address, normalize_text_str exc "Errore polling") := by
          rw [refresh_error_entry]
          exact if_neg hskip
        rw [if_neg hskip, ih]
        simp [he, List.filterMap_cons, List.append_assoc]

/-- C4 counterexample: an address whose poll fails with the
invalid-response protocol error ("Risposta protocollo non valida") is
polled but does NOT appear in the `refreshErrors` list, refuting the
claim that every failed address appears there. -/
theorem refresh_sweep_drops_invalid_response_failure :
    (refresh_sweep [(5, .error "Risposta protocollo non valida")]).2 = [] ∧
    (refresh_sweep [(5, .error "Risposta protocollo non valida")]).1 = [5] := by
  exact ⟨rfl, rfl⟩

/-- C4 (amended): the refresh sweep polls every configured address (a
failure never stops the loop), and a failed address appears with its
normalized error message in `refreshErrors` UNLESS the message contains
"Risposta protocollo non valida" (the invalid-response protocol error),
which the loop deliberately skips to keep the last known state. -/
theorem refresh_sweep_error_list (polls : List (ℤ × Except String Unit)) :
    (refresh_sweep polls).1 = polls.map Prod.fst ∧
    (refresh_sweep polls).2 = polls.filterMap refresh_error_entry := by
  rw [refresh_sweep, refresh_sweep_go_spec]
  simp

/-- C7: a thermostat command in which none of setpoint, mode, or power is
present fails validation with no frame sent and no state write: the
returned trace of frames handed to `send_frame` is empty and the
`update_state` write never happens. -/
theorem thermostat_requires_parameter (P : PyPrims) (prev : Option ThermoPrev)
    (setRaw modeRaw powerRaw : String) (hs : pyStrip setRaw = "")
    (hm : pyStrip modeRaw = "") (hp : pyStrip powerRaw = "") :
    api_thermostat_core P setRaw modeRaw powerRaw prev =
      ⟨[], none, some "serve almeno un parametro: set, power o mode"⟩ := by
  rw [api_thermostat_core.eq_def, parse_req_set, parse_req_mode, parse_req_power]
  rw [if_pos hs, if_pos hm, if_pos hp]
  simp

/-- Witness for `thermostat_requires_parameter` on literally empty
parameters. -/
theorem thermostat_requires_parameter_witness :
    api_thermostat_core testPrims "" "" "" none =
      ⟨[], none, some "serve almeno un parametro: set, power o mode"⟩ :=
  thermostat_requires_parameter testPrims none "" "" "" rfl rfl rfl

/-- C5 (code bug): with a single configured thermostat entity at bus
address 3 on channel 2, a lookup that gives the address but omits the
channel resolves nothing: `clamp_int(to_number(channel_raw, -1), 1, ...)`
forces the omitted channel to 1, so the address-only branch of
`find_entity` (which would return the unique entity) is unreachable and
the channel-match loop fails.  The claim's address-only resolution is
what the dead `len(by_address) == 1` branch of the source intends. -/
theorem find_entity_omitted_channel_misses_unique_entity :
    find_entity testPrims [sampleThermoBoard] "thermostat" "" "3" "" = none ∧
    ((iter_entities [sampleThermoBoard] "thermostat").filter
      (fun e => e.address = 3)).length = 1 := by
  exact ⟨rfl, rfl⟩

/-- C6: dimmer commands without an explicit level resolve the target from
the action and the stored state: `off` gives 0, `on` gives `lastOnLevel`
when the current level is 0 and the current level otherwise, `toggle`
gives 0 when the current level is positive and `lastOnLevel` otherwise;
the stored `lastOnLevel` after the command equals the resulting level
whenever that level is positive and is never set to 0 (it stays at least
1); and from level 0 with `lastOnLevel` 7, the sequence on, off, on
resolves target 7 both times, not 9.  `p` is the `dimmerLevel` of the
best-effort re-poll (`none` when the re-poll failed), which overrides the
requested level in the result. -/
theorem dimmer_level_resolution (P : PyPrims) (l lo : ℤ) (p : Option ℤ)
    (hl : 0 ≤ l ∧ l ≤ 9) (hlo : 1 ≤ lo ∧ lo ≤ 9)
    (hp : ∀ x, p = some x → 0 ≤ x ∧ x ≤ 9) :
    (api_dimmer_core P "" "off" (some ⟨l, lo⟩) p =
      .ok ("off", 0, p.getD 0,
        ⟨p.getD 0, decide (0 < p.getD 0), if 0 < p.getD 0 then p.getD 0 else lo⟩)) ∧
    (api_dimmer_core P "" "on" (some ⟨l, lo⟩) p =
      .ok ("on", if l = 0 then lo else l, p.getD (if l = 0 then lo else l),
        ⟨p.getD (if l = 0 then lo else l),
         decide (0 < p.getD (if l = 0 then lo else l)),
         if 0 < p.getD (if l = 0 then lo else l)
           then p.getD (if l = 0 then lo else l) else lo⟩)) ∧
    (api_dimmer_core P "" "toggle" (some ⟨l, lo⟩) p =
      .ok ("toggle", if 0 < l then 0 else lo, p.getD (if 0 < l then 0 else lo),
        ⟨p.getD (if 0 < l then 0 else lo),
         decide (0 < p.getD (if 0 < l then 0 else lo)),
         if 0 < p.getD (if 0 < l then 0 else lo)
           then p.getD (if 0 < l then 0 else lo) else lo⟩)) ∧
    (∀ f : ℤ, 1 ≤ (if 0 < f then f else lo)) ∧
    (api_dimmer_core P "" "on" (some ⟨0, 7⟩) none = .ok ("on", 7, 7, ⟨7, true, 7⟩)) ∧
    (api_dimmer_core P "" "off" (some ⟨7, 7⟩) none = .ok ("off", 0, 0, ⟨0, false, 7⟩)) ∧
    (api_dimmer_core P "" "on" (some ⟨0, 7⟩) none = .ok ("on", 7, 7, ⟨7, true, 7⟩)) := by
  have hcl : clamp_int_z l 0 9 = l := by
    simp only [clamp_int_z]
    omega
  have hclo : clamp_int_z lo 1 9 = lo := by
    simp only [clamp_int_z]
    omega
  have hoff : parse_dimmer_action "off" = Except.ok "off" := rfl
  have hon : parse_dimmer_action "on" = Except.ok "on" := rfl
  have htog : parse_dimmer_action "toggle" = Except.ok "toggle" := rfl
  have hblank : pyStrip "" = "" := rfl
  refine ⟨?_, ?_, ?_, fun f => by by_cases hf : 0 < f <;> simp [hf] <;> omega,
    rfl, rfl, rfl⟩
  · rw [api_dimmer_core.eq_def, hoff]
    cases hq : p with
    | none => simp [hblank, hcl, hclo, DIMMER_MIN_LEVEL, DIMMER_MAX_LEVEL]
    | some pl =>
      have hclp : clamp_int_z pl 0 9 = pl := by
        have := hp pl hq
        simp only [clamp_int_z]
        omega
      simp [hblank, hcl, hclo, hclp, DIMMER_MIN_LEVEL, DIMMER_MAX_LEVEL]
  · rw [api_dimmer_core.eq_def, hon]
    cases hq : p with
    | none => simp [hblank, hcl, hclo, DIMMER_MIN_LEVEL, DIMMER_MAX_LEVEL]
    | some pl =>
      have hclp : clamp_int_z pl 0 9 = pl := by
        have := hp pl hq
        simp only [clamp_int_z]
        omega
      simp [hblank, hcl, hclo, hclp, DIMMER_MIN_LEVEL, DIMMER_MAX_LEVEL]
  · rw [api_dimmer_core.eq_def, htog]
    cases hq : p with
    | none => simp [hblank, hcl, hclo, DIMMER_MIN_LEVEL, DIMMER_MAX_LEVEL]
    | some pl =>
      have hclp : clamp_int_z pl 0 9 = pl := by
        have := hp pl hq
        simp only [clamp_int_z]
        omega
      simp [hblank, hcl, hclo, hclp, DIMMER_MIN_LEVEL, DIMMER_MAX_LEVEL]

/-- Witness for `dimmer_level_resolution` at a concrete state and re-poll
level. -/
theorem dimmer_level_resolution_witness :
    api_dimmer_core testPrims "" "off" (some ⟨3, 5⟩) (some 4) =
      .ok ("off", 0, 4, ⟨4, true, 4⟩) := by
  have h := (dimmer_level_resolution testPrims 3 5 (some 4) (by omega) (by omega)
    (fun x hx => by cases hx; omega)).1
  simpa using h

/-- C8: a thermostat command carrying only `mode=summer` (no setpoint, no
power) succeeds, leaves the stored setpoint unchanged, and sends exactly
one mode frame (command byte `0x6B`, payload byte 1) and no setpoint
frame (no `0x5A` frame), with the mode frame sent first (the only other
wire traffic is the trailing best-effort `0x40` re-poll). -/
theorem thermostat_mode_only_frames (P : PyPrims) (t : ThermoPrev) (q : ℚ)
    (hq : t.setpoint = some q) :
    (api_thermostat_core P "" "summer" "" (some t)).err = none ∧
    ((api_thermostat_core P "" "summer" "" (some t)).sent.filter
      (fun f => decide (f.1 = 0x6B))) = [((0x6B : ℤ), [(1 : ℤ)])] ∧
    ((api_thermostat_core P "" "summer" "" (some t)).sent.filter
      (fun f => decide (f.1 = 0x5A))) = [] ∧
    (api_thermostat_core P "" "summer" "" (some t)).sent.head?
      = some ((0x6B : ℤ), [(1 : ℤ)]) ∧
    ∃ w, (api_thermostat_core P "" "summer" "" (some t)).write = some w ∧
      w.setpoint = q := by
  have h1 : parse_req_set P "" = .ok none := rfl
  have h2 : parse_req_mode "summer" = .ok (some "summer") := rfl
  have h3 : parse_req_power "" = .ok none := rfl
  have hr : api_thermostat_core P "" "summer" "" (some t) =
      ⟨[((0x6B : ℤ), [(1 : ℤ)]), ((0x40 : ℤ), [])],
       some ⟨q, "summer", t.isOn.getD true, t.isActive.getD (t.isOn.getD true)⟩,
       none⟩ := by
    rw [api_thermostat_core.eq_def, h1, h2, h3]
    simp [hq]
  rw [hr]
  refine ⟨rfl, by simp, by simp, rfl, ⟨_, rfl, rfl⟩⟩

/-- Witness for `thermostat_mode_only_frames` at a concrete stored state. -/
theorem thermostat_mode_only_frames_witness :
    (api_thermostat_core testPrims "" "summer" ""
      (some ⟨some 21, some "winter", some true, some true⟩)).err = none ∧
    ((api_thermostat_core testPrims "" "summer" ""
      (some ⟨some 21, some "winter", some true, some true⟩)).sent.filter
      (fun f => decide (f.1 = 0x6B))) = [((0x6B : ℤ), [(1 : ℤ)])] ∧
    ((api_thermostat_core testPrims "" "summer" ""
      (some ⟨some 21, some "winter", some true, some true⟩)).sent.filter
      (fun f => decide (f.1 = 0x5A))) = [] ∧
    (api_thermostat_core testPrims "" "summer" ""
      (some ⟨some 21, some "winter", some true, some true⟩)).sent.head?
      = some ((0x6B : ℤ), [(1 : ℤ)]) ∧
    ∃ w, (api_thermostat_core testPrims "" "summer" ""
      (some ⟨some 21, some "winter", some true, some true⟩)).write = some w ∧
      w.setpoint = 21 :=
  thermostat_mode_only_frames testPrims ⟨some 21, some "winter", some true, some true⟩
    21 rfl

/-- The clamp always lands in `[lo, hi]` when the interval is nonempty. -/
theorem clamp_int_p_bounds (v : PyNum) (lo hi : ℤ) (h : lo ≤ hi) :
    lo ≤ clamp_int_p v lo hi ∧ clamp_int_p v lo hi ≤ hi := by
  cases v <;> simp [clamp_int_p] <;> omega

/-- `to_address` either returns a valid bus address or falls back. -/
theorem to_address_p_cases (v : PyNum) (fb : ℤ) :
    (0 ≤ to_address_p v fb ∧ to_address_p v fb ≤ 254) ∨ to_address_p v fb = fb := by
  cases v with
  | fin q =>
    simp only [to_address_p, to_address_z]
    split_ifs with h
    · right; rfl
    · left; omega
  | nan => right; rfl
  | inf => right; rfl
  | ninf => right; rfl

/-- Every kind bound is at least 1. -/
theorem max_channel_by_kind_pos (kind : String) : 1 ≤ max_channel_by_kind kind := by
  rw [max_channel_by_kind]
  split_ifs <;> norm_num

/-- Members of `int_range lo hi` lie in `[lo, hi]`. -/
theorem int_range_bounds (lo hi n : ℤ) (h : n ∈ int_range lo hi) :
    lo ≤ n ∧ n ≤ hi := by
  rw [int_range] at h
  obtain ⟨k, hk, he⟩ := List.mem_map.mp h
  rw [List.mem_range] at hk
  omega

/-- C10 counterexample: `normalize_board` of an empty JSON object at
index 300 produces a board whose address is 300, outside 0-254: the
`to_address` fallback is the caller-supplied index, which is not itself
range-checked. -/
theorem normalize_board_address_escapes_range :
    (normalize_board testPrims (PyVal.pobj []) 300).address = 300 ∧
    ¬ ((normalize_board testPrims (PyVal.pobj []) 300).address ≤ 254) := by
  constructor
  · rfl
  · intro hle
    have h : (normalize_board testPrims (PyVal.pobj []) 300).address = 300 := rfl
    rw [h] at hle
    omega

/-- C10 (amended): for every raw JSON value and index, the board produced
by `normalize_board` is well-formed: its kind is one of
light/shutter/thermostat/dimmer (defaulting to light), its address is in
0-254 or equals the caller-supplied fallback index (an out-of-range or
invalid `address` input falls back to the index, which is not itself
range-checked), `1 ≤ channelStart ≤ channelEnd ≤` the kind-specific
maximum even when the input has `channelEnd < channelStart` or
out-of-range values, and the channels list has exactly one entry per
channel number from `channelStart` to `channelEnd` in increasing order
(so provided channel metadata outside that range attaches to nothing). -/
theorem normalize_board_invariant (P : PyPrims) (board_any : PyVal) (index : ℤ) :
    ((normalize_board P board_any index).kind = "light" ∨
      (normalize_board P board_any index).kind = "shutter" ∨
      (normalize_board P board_any index).kind = "thermostat" ∨
      (normalize_board P board_any index).kind = "dimmer") ∧
    ((0 ≤ (normalize_board P board_any index).address ∧
        (normalize_board P board_any index).address ≤ 254) ∨
      (normalize_board P board_any index).address = index) ∧
    1 ≤ (normalize_board P board_any index).channelStart ∧
    (normalize_board P board_any index).channelStart ≤
      (normalize_board P board_any index).channelEnd ∧
    (normalize_board P board_any index).channelEnd ≤
      max_channel_by_kind (normalize_board P board_any index).kind ∧
    (normalize_board P board_any index).channels.map (fun c => c.channel) =
      int_range (normalize_board P board_any index).channelStart
        (normalize_board P board_any index).channelEnd ∧
    ∀ c ∈ (normalize_board P board_any index).channels,
      (normalize_board P board_any index).channelStart ≤ c.channel ∧
        c.channel ≤ (normalize_board P board_any index).channelEnd := by
  simp only [normalize_board]
  set kr := pyLower (normalize_text P (pyGet board_any "kind") "light") with hkr
  set kind := if kr = "light" ∨ kr = "shutter" ∨ kr = "thermostat" ∨ kr = "dimmer"
    then kr else "light" with hkind
  set mc := max_channel_by_kind kind with hmc
  set start := clamp_int_p (to_number P (pyGet board_any "channelStart") (.fin 1))
    1 mc with hstart
  set end0 := clamp_int_p
    (to_number P (pyGet board_any "channelEnd") (.fin (mc : ℚ))) 1 mc with hend0
  set stop := if end0 < start then start else end0 with hstop
  have hmc1 : 1 ≤ mc := by rw [hmc]; exact max_channel_by_kind_pos kind
  have hs := clamp_int_p_bounds
    (to_number P (pyGet board_any "channelStart") (.fin 1)) 1 mc hmc1
  have he := clamp_int_p_bounds
    (to_number P (pyGet board_any "channelEnd") (.fin (mc : ℚ))) 1 mc hmc1
  rw [← hstart] at hs
  rw [← hend0] at he
  refine ⟨?_, ?_, ?_, ?_, ?_, ?_, ?_⟩
  · rw [hkind]
    split_ifs with hc
    · exact hc
    · left; rfl
  · exact to_address_p_cases _ index
  · exact hs.1
  · rw [hstop]
    split_ifs with hc <;> omega
  · rw [hstop]
    split_ifs with hc
    · exact hs.2
    · exact he.2
  · rw [List.map_map]
    exact List.map_id' _
  · intro c hc
    obtain ⟨n, hn, he⟩ := List.mem_map.mp hc
    rw [← he]
    exact int_range_bounds _ _ _ hn

/-- If no offset of the buffer starts a frame, the scan finds nothing
(the invariant `idx + fuel + 13 ≤ len` says every offset the remaining
fuel can reach fits a full window). -/
theorem extract_scan_none (buffer : List ℤ) :
    ∀ (fuel idx : ℕ), idx + fuel + 13 ≤ buffer.length →
      (∀ i, ¬ frame_at buffer i) → extract_scan buffer idx fuel = none := by
  intro fuel
  induction fuel with
  | zero => intro idx hb hn; rfl
  | succ fuel ih =>
    intro idx hb hn
    simp only [extract_scan]
    rw [if_neg]
    · exact ih (idx + 1) (by omega) hn
    · intro hc
      refine hn idx ⟨?_, hc.1, hc.2⟩
      simp only [FRAME_LEN]
      omega

/-- If offset `i` starts a frame and no earlier offset does, the scan
started at or before `i` with enough fuel returns exactly the window at
`i`. -/
theorem extract_scan_found (buffer : List ℤ) :
    ∀ (fuel idx i : ℕ), idx ≤ i → i < idx + fuel → frame_at buffer i →
      (∀ j, j < i → ¬ frame_at buffer j) →
      extract_scan buffer idx fuel = some ((buffer.drop i).take FRAME_LEN) := by
  intro fuel
  induction fuel with
  | zero => intro idx i h1 h2 _ _; exact (by omega : False).elim
  | succ fuel ih =>
    intro idx i h1 h2 hfi hleast
    simp only [extract_scan]
    by_cases hii : idx = i
    · subst hii
      rw [if_pos ⟨hfi.2.1, hfi.2.2⟩]
    · have hlt : idx < i := by omega
      rw [if_neg]
      · exact ih (idx + 1) i (by omega) (by omega) hfi hleast
      · intro hc
        refine hleast idx hlt ⟨?_, hc.1, hc.2⟩
        have hb := hfi.1
        simp only [FRAME_LEN] at hb ⊢
        omega

/-- C3: `extract_first_frame` returns the 14-byte window starting at the
smallest offset `i` with `buffer[i] = 0x49` and `buffer[i+13] = 0x46`,
and `none` when no such offset exists; a `0x49` byte whose position+13
byte is not `0x46` does not stop the scan, so a valid frame preceded by
arbitrary garbage (including false `0x49` starts) is still found. -/
theorem extract_first_frame_first_match (buffer : List ℤ) :
    ((∀ i, ¬ frame_at buffer i) → extract_first_frame buffer = none) ∧
    ∀ i, frame_at buffer i → (∀ j, j < i → ¬ frame_at buffer j) →
      extract_first_frame buffer = some ((buffer.drop i).take FRAME_LEN) := by
  constructor
  · intro hn
    rw [extract_first_frame]
    by_cases hlen : buffer.length < FRAME_LEN
    · rw [if_pos hlen]
    · rw [if_neg hlen]
      refine extract_scan_none buffer _ 0 ?_ hn
      simp only [FRAME_LEN] at hlen ⊢
      omega
  · intro i hfi hleast
    have hbound := hfi.1
    rw [extract_first_frame]
    rw [if_neg (by simp only [FRAME_LEN] at hbound ⊢; omega)]
    refine extract_scan_found buffer _ 0 i (Nat.zero_le i) ?_ hfi hleast
    simp only [FRAME_LEN] at hbound ⊢
    omega

/-- Witness for `extract_first_frame_first_match`: a buffer opening with
a false `0x49` start (its position+13 byte is 0) and garbage, followed by
a true frame at offset 2. -/
theorem extract_first_frame_first_match_witness :
    extract_first_frame
      [0x49, 7, 0x49, 1, 0x40, 0, 0, 0, 0, 0, 0, 0, 0, 0, 0, 0x46] =
      some ((([0x49, 7, 0x49, 1, 0x40, 0, 0, 0, 0, 0, 0, 0, 0, 0, 0, 0x46] :
        List ℤ).drop 2).take FRAME_LEN) :=
  (extract_first_frame_first_match _).2 2 (by decide) (by decide)

/-- Witness for `normalize_board_invariant`: the channel-bound conjunct
applied to a concrete channel of the board normalized from an empty JSON
object at index 1. -/
theorem normalize_board_invariant_witness :
    (normalize_board testPrims (PyVal.pobj []) 1).channelStart ≤
      (⟨1, "Luce 1", "Senza stanza"⟩ : ChannelMeta).channel ∧
    (⟨1, "Luce 1", "Senza stanza"⟩ : ChannelMeta).channel ≤
      (normalize_board testPrims (PyVal.pobj []) 1).channelEnd :=
  (normalize_board_invariant testPrims (PyVal.pobj []) 1).2.2.2.2.2.2 _ (by decide)
